import Mathlib

/-!
Shallow embedding of the `useFormValidate` React hook
(src/useFormValidate.jsx) for checking its natural-language
specification.

Modelling conventions:
* JavaScript strings are Lean `String`s (all values exercised here are
  ASCII, so code-unit length coincides with `String.length`).
* The two pieces of React state, `inputs` and `errors`, are association
  lists keyed by field name, in insertion order (matching JS object key
  order).  A `setInputs`/`setErrors` object-spread update is `updKey`.
* A JS value handed to `validate` is a `JSVal`: a string, `undefined`
  or `null` (the only shapes the claims exercise; file-upload `values`
  arrays are outside the scope of every claim and are not modelled).
* A stored error is an `ErrVal`: the source can write either a string
  or the raw `null` returned by a custom validator into the error map.
* `throw new Error(msg)` is `Except.error msg`.
* `new Date(s)` validity is host-defined, so `validate` takes the host
  parser as an explicit parameter `dateOk : String → Bool`.
-/

namespace UseFormValidate

/-- A JS value passed as the `value` argument of `validate`. -/
inductive JSVal where
  | str (s : String)
  | undef
  | null
deriving DecidableEq

/-- A value stored in the error map: the source writes strings, or the
raw `null` a custom validator may return. -/
inductive ErrVal where
  | str (s : String)
  | null
deriving DecidableEq

/-- Result of a caller-supplied custom `validate` function: `true`,
`false`, a string, or some other falsey JS value (represented by
`vnull`, standing for `null`). -/
inductive VResult where
  | vtrue
  | vfalse
  | vstr (s : String)
  | vnull
deriving DecidableEq

/-- Message catalog with the source's built-in Spanish defaults
(the `customErrorMessages` default parameter of the hook). -/
structure Msgs where
  is_type_file : String := "Debe seleccionar un archivo"
  is_type_checkbox : String := "Debe seleccionar al menos una opción"
  is_type_radio : String := "Debe seleccionar una opción"
  is_required : String := "Campo obligatorio"
  is_type_money : String := "Debe ser un valor numérico válido para dinero"
  min_length : String := "El campo debe tener al menos {minLength} caracteres"
  max_length : String := "El campo no debe exceder los {maxLength} caracteres"
  min : String := "El campo debe tener al menos {min}"
  max : String := "El campo no debe exceder los {max}"
  fields_not_match : String := "Los campos no coinciden"
  invalid_email : String := "Ingrese un correo electrónico válido"
  invalid_phone : String := "Ingrese un numero telefónico válido"
  invalid_date : String := "Ingrese una fecha válida"
  invalid_url : String := "Ingrese una url válida"
  custom_validation : String := "Error de validación personalizada"

/-- The hook's default message catalog. -/
def defaultMsgs : Msgs := {}

/-- Name of the field another field is compared to (forward declaration
of the association-list field map comes below). `Rule` mirrors the
`Rule` typedef of the source.  The custom validator receives the value
and the current name-to-value map (the projection of the `inputs` store
the source passes). -/
structure Rule where
  required : Bool := false
  url : Bool := false
  phone : Bool := false
  money : Bool := false
  min : Option Int := none
  max : Option Int := none
  minLength : Option Nat := none
  maxLength : Option Nat := none
  isEqual : Option String := none
  email : Bool := false
  date : Bool := false
  validate : Option (String → List (String × String) → VResult) := none
  checkbox : Bool := false
  radio : Bool := false
  file : Bool := false
  errorLabel : Option String := none
  helperText : Option String := none
  errorBoolean : Bool := false
  value : Option String := none

/-- One entry of the `inputs` store: the rules attached at registration
and the current value. -/
structure Field where
  rules : Rule := {}
  value : String := ""

/-- The `inputs` React state: field name to field record, in insertion
order. -/
abbrev Inputs := List (String × Field)

/-- The `errors` React state: field name to stored error value. -/
abbrev Errors := List (String × ErrVal)

/-- JS object-spread update `{ ...m, [k]: v }`: replaces the value of an
existing key in place, otherwise appends the key at the end. -/
def updKey {α : Type} (l : List (String × α)) (k : String) (v : α) :
    List (String × α) :=
  if l.any (fun p => p.1 == k) then
    l.map (fun p => if p.1 == k then (k, v) else p)
  else l ++ [(k, v)]

/-- Association-list lookup, i.e. JS `m[k]` giving `undefined` when the
key is absent. -/
def lookupKey {α : Type} (l : List (String × α)) (k : String) : Option α :=
  (l.find? (fun p => p.1 == k)).map (fun p => p.2)

/-- `setError(name, message)` on the error store. -/
def setErr (errors : Errors) (name : String) (m : ErrVal) : Errors :=
  updKey errors name m

/-- `clearError(name)` on the error store (sets the empty string). -/
def clearErr (errors : Errors) (name : String) : Errors :=
  updKey errors name (ErrVal.str "")

/-- JS `a || b` for an optional string `a` (absent or empty string is
falsy) with a string fallback. -/
def jsOr (a : Option String) (b : String) : String :=
  match a with
  | some s => if s == "" then b else s
  | none => b

/-- Truthiness of an optional number option (`rules?.minLength` is falsy
when absent or `0`). -/
def natTruthy (o : Option Nat) : Bool :=
  match o with
  | some n => n != 0
  | none => false

/-- Truthiness of an optional string option (`rules?.isEqual` is falsy
when absent or the empty string). -/
def strTruthy (o : Option String) : Bool :=
  match o with
  | some s => s != ""
  | none => false

/-- JS `String.prototype.trim` (structural, on the character data). -/
def jsTrim (s : String) : String :=
  String.mk ((s.data.dropWhile Char.isWhitespace).reverse.dropWhile Char.isWhitespace).reverse

/-- Decimal value of a digit list (`none` on a non-digit). -/
def digitsVal (acc : Nat) : List Char → Option Nat
  | [] => some acc
  | c :: cs => if c.isDigit then digitsVal (acc * 10 + (c.toNat - 48)) cs else none

/-- JS `ToNumber` on a string, for the `value < rules.min` comparison.
The whitespace-trimmed empty string converts to `0`; signed decimal
integer strings convert to their value; anything else is `NaN`,
modelled as `none` (every comparison against `NaN` is false). -/
def jsToNumber (s : String) : Option Int :=
  match (s.data.dropWhile Char.isWhitespace).reverse.dropWhile Char.isWhitespace |>.reverse with
  | [] => some 0
  | '-' :: ds => if ds.isEmpty then none else (digitsVal 0 ds).map (fun n => -(n : Int))
  | '+' :: ds => if ds.isEmpty then none else (digitsVal 0 ds).map (fun n => (n : Int))
  | ds => (digitsVal 0 ds).map (fun n => (n : Int))

/-- The source's `value < rules.min` where `value` is a string and the
bound may be absent (`x < undefined` is false in JS). -/
def jsLtNum (v : String) (m : Option Int) : Bool :=
  match m, jsToNumber v with
  | some mv, some nv => decide (nv < mv)
  | _, _ => false

/-- The source's `value > rules.max` (false when the bound is absent). -/
def jsGtNum (v : String) (m : Option Int) : Bool :=
  match m, jsToNumber v with
  | some mv, some nv => decide (nv > mv)
  | _, _ => false

/-- The source's `value !== inputs[rules.isEqual]?.value` (negated):
strict equality of the value against the possibly-missing stored value
of the sibling field (`undefined` is never strictly equal to a string). -/
def eqStored (v : String) (o : Option String) : Bool :=
  match o with
  | some w => v == w
  | none => false

/-- JS `String.prototype.replace` with a string pattern: replaces the
first occurrence of `pat` only, as in the `{placeholder}` substitution
of the message catalog. -/
def replaceAux (pat rep : List Char) : List Char → List Char
  | [] => []
  | c :: cs =>
    if pat ≠ [] ∧ pat.isPrefixOf (c :: cs) then
      rep ++ (c :: cs).drop pat.length
    else c :: replaceAux pat rep cs

/-- String-level wrapper of `replaceAux`. -/
def replaceFirst (s pat rep : String) : String :=
  String.mk (replaceAux pat.data rep.data s.data)

/-- The regex `^(ftp|http|https):\/\/[^ "]+$` of `isValidUrl`. -/
def isValidUrl (s : String) : Bool :=
  ["ftp://", "http://", "https://"].any fun p =>
    p.data.isPrefixOf s.data &&
      (let rest := s.data.drop p.data.length
       !rest.isEmpty && rest.all (fun c => c != ' ' && c != '"'))

/-- The regex `/\S+@\S+\.\S+/` of `validateEmail` (unanchored search):
there is an `@` with a non-space character right before it, and a later
`.` with only non-space characters strictly between `@` and `.`, at
least one of them, and a non-space character right after the `.`. -/
def validateEmail (s : String) : Bool :=
  let cs := s.data
  let n := cs.length
  let nonspace := fun (c : Char) => !c.isWhitespace
  (List.range n).any fun i =>
    decide (1 ≤ i) && (cs.getD i ' ' == '@') && nonspace (cs.getD (i - 1) ' ') &&
      ((List.range n).any fun j =>
        decide (i + 2 ≤ j) && decide (j + 1 < n) && (cs.getD j ' ' == '.') &&
          nonspace (cs.getD (j + 1) ' ') &&
          (((List.range n).filter fun k => decide (i < k) && decide (k < j)).all
            fun k => nonspace (cs.getD k ' ')))

/-- JS `String.prototype.split` with a one-character separator, on
character data (the empty string splits to one empty part, as in JS). -/
def splitOnChar (sep : Char) : List Char → List (List Char)
  | [] => [[]]
  | c :: cs =>
    if c == sep then [] :: splitOnChar sep cs
    else
      match splitOnChar sep cs with
      | [] => [[c]]
      | g :: gs => (c :: g) :: gs

/-- JS `Array.prototype.join` with a one-character separator. -/
def joinSep (sep : Char) : List (List Char) → List Char
  | [] => []
  | [g] => g
  | g :: gs => g ++ sep :: joinSep sep gs

/-- The regex `^\d{1,3}(\.\d{3})*(,\d{1,2})?$` of `validateMoney`:
an integer part of period-separated digit groups (first group one to
three digits, later groups exactly three) and an optional fractional
part of one or two digits after a comma. -/
def validateMoney (s : String) : Bool :=
  let intOk := fun (gs : List (List Char)) =>
    match gs with
    | [] => false
    | g :: rest =>
      decide (1 ≤ g.length) && decide (g.length ≤ 3) && g.all Char.isDigit &&
        rest.all (fun h => (h.length == 3) && h.all Char.isDigit)
  match splitOnChar ',' s.data with
  | [ip] => intOk (splitOnChar '.' ip)
  | [ip, fp] =>
    intOk (splitOnChar '.' ip) && decide (1 ≤ fp.length) && decide (fp.length ≤ 2) &&
      fp.all Char.isDigit
  | _ => false

/-- Right-to-left grouping of a digit string in blocks of three,
working on the reversed character list: this is what the replace with
`\B(?=(\d{3})+(?!\d))` does on an all-digit string (a period is
inserted before every interior position whose distance to the end is a
positive multiple of three). -/
def thousandsAux : List Char → List Char
  | a :: b :: c :: rest =>
    if rest.isEmpty then [a, b, c] else a :: b :: c :: '.' :: thousandsAux rest
  | l => l

/-- Thousands grouping of the integer part of `formatMoneyInput`. -/
def thousandsList (l : List Char) : List Char :=
  (thousandsAux l.reverse).reverse

/-- `formatMoneyInput`: strip everything but digits and commas, split on
the comma, insert thousands separators into the integer part, and
rejoin with commas. -/
def formatMoneyInput (value : String) : String :=
  let numericValue := value.data.filter fun c => c.isDigit || c == ','
  match splitOnChar ',' numericValue with
  | [] => ""
  | p :: ps => String.mk (joinSep ',' (thousandsList p :: ps))

/-- The `DDD-DDD-DDDD` grouping of a ten-digit character list. -/
def group10 (cs : List Char) : String :=
  String.mk (cs.take 3) ++ "-" ++ String.mk ((cs.drop 3).take 3) ++ "-" ++
    String.mk (cs.drop 6)

/-- `formatPhoneInput`: strip everything but digits, commas and plus
signs, then try the anchored regex
`^(\+\d{1,3}|)\s?(\d{3})(\d{3})(\d{4})$` (the stripped value never
contains whitespace, so `\s?` always matches empty): either exactly ten
digits, or a `+`, one to three country-code digits and exactly ten more
digits.  On a match render `[+cc ]DDD-DDD-DDDD`, otherwise return the
stripped value unchanged. -/
def formatPhoneInput (value : String) : String :=
  let numericValue := value.data.filter fun c => c.isDigit || c == ',' || c == '+'
  if numericValue.all Char.isDigit && (numericValue.length == 10) then
    group10 numericValue
  else if numericValue.head? == some '+' then
    if numericValue.tail.all Char.isDigit && decide (11 ≤ numericValue.tail.length) &&
        decide (numericValue.tail.length ≤ 13) then
      "+" ++ String.mk (numericValue.tail.take (numericValue.tail.length - 10)) ++ " " ++
        group10 (numericValue.tail.drop (numericValue.tail.length - 10))
    else String.mk numericValue
  else String.mk numericValue

/-- The name-to-value projection of the store, handed to a custom
validator as its second argument. -/
def inputsVals (inputs : Inputs) : List (String × String) :=
  inputs.map (fun p => (p.1, p.2.value))

/-- Stored value of the sibling field named by `isEqual`:
`inputs[rules.isEqual]?.value`. -/
def storedValue (inputs : Inputs) (o : Option String) : Option String :=
  match o with
  | some k => (lookupKey inputs k).map Field.value
  | none => none

/-- Rule checks after the custom `validate` function: checkbox, radio
and file presence, then the final required-emptiness check, then
`clearError` on success.  For a string value, JS `!value` is `value
=== ""`, and the file check's object clause never applies. -/
def validateTail (msgs : Msgs) (errors : Errors) (name : String)
    (v : String) (r : Rule) : Bool × Errors :=
  if r.required && r.checkbox && (v == "") then
    (false, setErr errors name (ErrVal.str (jsOr r.errorLabel msgs.is_type_checkbox)))
  else if r.required && r.radio && (v == "") then
    (false, setErr errors name (ErrVal.str (jsOr r.errorLabel msgs.is_type_radio)))
  else if r.required && r.file && (v == "") then
    (false, setErr errors name (ErrVal.str (jsOr r.errorLabel msgs.is_type_file)))
  else if r.required && ((v == "") || (jsTrim v == "")) then
    (false, setErr errors name (ErrVal.str (jsOr r.errorLabel msgs.is_required)))
  else
    (true, clearErr errors name)

/-- The body of `validate` for a defined, non-null (string) value:
the source's chain of `if` statements, in source order.  An absent
`rules` argument behaves exactly like `{}` because every access is an
optional-chained flag read, so the default `Rule` record is used. -/
def validateStr (dateOk : String → Bool) (msgs : Msgs) (inputs : Inputs)
    (errors : Errors) (name : String) (v : String) (rules : Option Rule) :
    Bool × Errors :=
  let r := rules.getD {}
  if r.required && r.url && !isValidUrl v then
    (false, setErr errors name (ErrVal.str (jsOr r.errorLabel msgs.invalid_url)))
  else if r.required && r.phone && (decide (v.length < 6) || decide (v.length > 15)) then
    (false, setErr errors name (ErrVal.str (jsOr r.errorLabel msgs.invalid_phone)))
  else if r.required && r.money && !validateMoney v then
    (false, setErr errors name (ErrVal.str (jsOr r.errorLabel msgs.is_type_money)))
  else if r.required && jsLtNum v r.min then
    (false, setErr errors name (ErrVal.str (jsOr r.errorLabel
      (replaceFirst msgs.min "{min}" ((r.min.map toString).getD "undefined")))))
  else if r.required && jsGtNum v r.max then
    (false, setErr errors name (ErrVal.str (jsOr r.errorLabel
      (replaceFirst msgs.max "{max}" ((r.max.map toString).getD "undefined")))))
  else if r.required && natTruthy r.minLength && decide (v.length < r.minLength.getD 0) then
    (false, setErr errors name (ErrVal.str (jsOr r.errorLabel
      (replaceFirst msgs.min_length "{minLength}" (toString (r.minLength.getD 0))))))
  else if r.required && natTruthy r.maxLength && decide (v.length > r.maxLength.getD 0) then
    (false, setErr errors name (ErrVal.str (jsOr r.errorLabel
      (replaceFirst msgs.max_length "{maxLength}" (toString (r.maxLength.getD 0))))))
  else if r.required && strTruthy r.isEqual && !eqStored v (storedValue inputs r.isEqual) then
    (false, setErr errors name (ErrVal.str (jsOr r.errorLabel msgs.fields_not_match)))
  else if r.required && r.email && !validateEmail v then
    (false, setErr errors name (ErrVal.str (jsOr r.errorLabel msgs.invalid_email)))
  else if r.required && r.date && !dateOk v then
    (false, setErr errors name (ErrVal.str (jsOr r.errorLabel msgs.invalid_date)))
  else
    match r.validate with
    | some f =>
      match f v (inputsVals inputs) with
      | VResult.vtrue => validateTail msgs errors name v r
      | VResult.vfalse =>
        (false, setErr errors name (ErrVal.str (jsOr r.errorLabel msgs.custom_validation)))
      | VResult.vstr s => (false, setErr errors name (ErrVal.str s))
      | VResult.vnull => (false, setErr errors name ErrVal.null)
    | none => validateTail msgs errors name v r

/-- `validate(name, value, rules)`: throws on an `undefined` or `null`
value before touching any state, otherwise runs the rule chain and
returns the boolean verdict together with the updated error store. -/
def validate (dateOk : String → Bool) (msgs : Msgs) (inputs : Inputs)
    (errors : Errors) (name : String) (value : JSVal) (rules : Option Rule) :
    Except String (Bool × Errors) :=
  match value with
  | JSVal.undef => Except.error "El campo value es requerido para validar el campo."
  | JSVal.null => Except.error "El campo value es requerido para validar el campo."
  | JSVal.str v => Except.ok (validateStr dateOk msgs inputs errors name v rules)

/-- The `Object.keys(inputs).every(...)` loop of `handleSubmit`:
validates fields in store order, accumulating `formData` and the error
store, and stops at the first failing field (`Array.prototype.every`
short-circuits).  For the string-valued fields modelled here,
`value || values || ''` is just the stored value. -/
def submitLoop (dateOk : String → Bool) (msgs : Msgs) (inputs : Inputs) :
    List (String × Field) → Errors → List (String × String) →
    Bool × Errors × List (String × String)
  | [], errors, fd => (true, errors, fd)
  | (n, f) :: rest, errors, fd =>
    if (validateStr dateOk msgs inputs errors n f.value (some f.rules)).1 then
      submitLoop dateOk msgs inputs rest
        (validateStr dateOk msgs inputs errors n f.value (some f.rules)).2
        (updKey fd n f.value)
    else
      (false, (validateStr dateOk msgs inputs errors n f.value (some f.rules)).2,
        updKey fd n f.value)

/-- Outcome of one invocation of the handler returned by
`handleSubmit(onSubmit)`: the error store after the run, the collected
form data, and the argument `onSubmit` was called with (`none` when it
was not called). -/
structure SubmitOutcome where
  errors : Errors
  formData : List (String × String)
  calledWith : Option (List (String × String))
deriving DecidableEq

/-- `handleSubmit(onSubmit)` applied to an event: throws when
`onSubmit` is not a function (`onSubmitValid` models
`onSubmit && typeof onSubmit === "function"`), otherwise validates
every registered field in order until the first failure; on full
success the grouping periods of money-rule fields are stripped from the
collected values and `onSubmit` is invoked with them. -/
def handleSubmit (dateOk : String → Bool) (msgs : Msgs) (inputs : Inputs)
    (errors : Errors) (onSubmitValid : Bool) : Except String SubmitOutcome :=
  if !onSubmitValid then
    Except.error "La funcion handleSubmit espera como parametro una funcion."
  else
    match submitLoop dateOk msgs inputs inputs errors [] with
    | (true, errs, fd) =>
      let fd' := fd.map fun p =>
        match lookupKey inputs p.1 with
        | some f =>
          if f.rules.money then (p.1, String.mk (p.2.data.filter fun c => c != '.'))
          else p
        | none => p
      Except.ok { errors := errs, formData := fd', calledWith := some fd' }
    | (false, errs, fd) =>
      Except.ok { errors := errs, formData := fd, calledWith := none }

/-- The registration side effect of `getFieldProps(name, rules,
anotherValue, defaultValue)`.  The mutation is guarded by
`!(name in inputs)`, so an already-registered name is never touched;
inside that guard, `isEqualInput` compares
`JSON.stringify(inputs[name]?.rules)` — which is JS `undefined`, the
name not being in `inputs` — with the string `JSON.stringify(rules)`,
so it is always false and a fresh record is always created, with
`value: rules?.value || defaultValue || ''` (the `changeProps` extra
for file fields carries the auxiliary `values` sequence, which no claim
concerns and which is not modelled). -/
def getFieldPropsRegister (inputs : Inputs) (name : String) (rules : Rule)
    (defaultValue : Option String) : Inputs :=
  if inputs.any (fun p => p.1 == name) then inputs
  else updKey inputs name { rules := rules, value := jsOr rules.value (jsOr defaultValue "") }

/-- `getFieldError(name)`: the stored error coerced with `|| ''`. -/
def getFieldError (errors : Errors) (name : String) : String :=
  match lookupKey errors name with
  | some (ErrVal.str s) => s
  | some ErrVal.null => ""
  | none => ""

/-- JS truthiness of `errors[name]`, for the `errorBoolean` variant of
the `error` prop. -/
def errTruthy (errors : Errors) (name : String) : Bool :=
  match lookupKey errors name with
  | some (ErrVal.str s) => s != ""
  | some ErrVal.null => false
  | none => false

/-- The `error` prop: a message string, or a boolean flag when the
stored rules set `errorBoolean`. -/
inductive ErrorProp where
  | flag (b : Bool)
  | msg (s : String)
deriving DecidableEq

/-- The props bundle `getFieldProps` returns (minus the two event
handlers, which no claim concerns).  `helperEntry` is the
computed-key member `{ [rules?.helperText]: getFieldError(name) }`:
its key is the JS string conversion of the `helperText` option, so the
literal string `"undefined"` when the option is unset. -/
structure FieldProps where
  name : String
  helperEntry : Option (String × String) := none
  value : Option String := none
  error : Option ErrorProp := none
deriving DecidableEq

/-- Key of the computed helper-text member: JS stringifies the
`undefined` key to `"undefined"`. -/
def jsKeyOfHelper (o : Option String) : String :=
  match o with
  | some t => t
  | none => "undefined"

/-- The object `getFieldProps` returns, computed from the current
(pre-registration) `inputs` and `errors`.  When the name is
unregistered the `others` spread is empty; when registered, the spread
always contains the helper-text member because its guard is the
single-element array `[rules?.helperText]`, which is truthy for every
value of the option. -/
def getFieldPropsBundle (inputs : Inputs) (errors : Errors) (name : String)
    (rules : Rule) : FieldProps :=
  match lookupKey inputs name with
  | none => { name := name }
  | some f =>
    { name := name
      helperEntry := some (jsKeyOfHelper rules.helperText, getFieldError errors name)
      value := if rules.file then none else some f.value
      error := some (if f.rules.errorBoolean then ErrorProp.flag (errTruthy errors name)
                     else ErrorProp.msg (getFieldError errors name)) }

/-! ### Helper lemmas -/

/-- Rebuilding a string from its character data is the identity. -/
theorem strMk_data (s : String) : String.mk s.data = s := by
  cases s
  rfl

/-- Character data of an appended string. -/
theorem strData_append (s t : String) : (s ++ t).data = s.data ++ t.data := by
  cases s
  cases t
  rfl

/-- `submitLoop` over an appended key list runs the first part and, only
when it fully passes, continues with the second from the accumulated
state. -/
theorem submitLoop_append (dateOk : String → Bool) (msgs : Msgs) (inputs : Inputs)
    (l1 l2 : List (String × Field)) (errs : Errors) (fd : List (String × String)) :
    submitLoop dateOk msgs inputs (l1 ++ l2) errs fd =
      (match submitLoop dateOk msgs inputs l1 errs fd with
       | (true, e, f) => submitLoop dateOk msgs inputs l2 e f
       | (false, e, f) => (false, e, f)) := by
  induction l1 generalizing errs fd with
  | nil => simp [submitLoop]
  | cons p rest ih =>
    obtain ⟨n, f⟩ := p
    simp only [List.cons_append, submitLoop]
    cases hv : (validateStr dateOk msgs inputs errs n f.value (some f.rules)).1 with
    | true => simp only [hv, if_true]; exact ih _ _
    | false => simp [hv]

/-! ### Claim theorems -/

/-- C1, counterexample: on the empty string with
`{ required: true, minLength: 5 }` the current `validate` reports the
*length* message, not the required-field message the claim predicts —
the required-emptiness check is the last rule in the chain, not the
first. -/
theorem c1_order_counterexample :
    validate (fun _ => false) defaultMsgs [] [] "f" (JSVal.str "")
      (some { required := true, minLength := some 5 }) =
      Except.ok (false, [("f", ErrVal.str "El campo debe tener al menos 5 caracteres")]) ∧
    "El campo debe tener al menos 5 caracteres" ≠ defaultMsgs.is_required :=
  ⟨rfl, by decide⟩

/-- C1, amended: `validate` evaluates rules in a fixed order in which
the required-emptiness check comes last (after url, phone, money,
min/max, the length bounds, isEqual, email, date, the custom validator
and the checkbox/radio/file checks); the first failing rule alone
determines the reported message.  For the empty string with
`{ required: true, minLength: n }`, `n > 0`, the reported message is
the minLength message — also when a later rule (such as `email`) would
fail too. -/
theorem c1_order_amended (n : Nat) (h : 0 < n) (dateOk : String → Bool)
    (inputs : Inputs) (errs : Errors) (name : String) :
    validate dateOk defaultMsgs inputs errs name (JSVal.str "")
      (some { required := true, minLength := some n }) =
      Except.ok (false, setErr errs name (ErrVal.str
        (replaceFirst defaultMsgs.min_length "{minLength}" (toString n)))) ∧
    validate dateOk defaultMsgs inputs errs name (JSVal.str "")
      (some { required := true, minLength := some n, email := true }) =
      Except.ok (false, setErr errs name (ErrVal.str
        (replaceFirst defaultMsgs.min_length "{minLength}" (toString n)))) := by
  have h1 : (n != 0) = true := by simpa using Nat.pos_iff_ne_zero.mp h
  have h2 : decide (("" : String).length < n) = true := by
    rw [String.length_empty]
    exact decide_eq_true h
  constructor <;>
    (unfold validate validateStr
     simp [natTruthy, jsLtNum, jsGtNum, jsOr, h1, h2]
     intro h0
     exact absurd h0 (Nat.pos_iff_ne_zero.mp h))

/-- C1, witness for the amended theorem at `n = 5`. -/
theorem c1_order_witness :
    0 < 5 ∧
    validate (fun _ => false) defaultMsgs [] [] "f" (JSVal.str "")
      (some { required := true, minLength := some 5 }) =
      Except.ok (false, [("f", ErrVal.str "El campo debe tener al menos 5 caracteres")]) :=
  ⟨by decide, (c1_order_amended 5 (by decide) (fun _ => false) [] [] "f").1⟩

/-- C4, counterexample: a custom validator returning the falsey
non-string `null` does not produce the generic custom-validation
catalog message — the raw `null` is written into the error store. -/
theorem c4_custom_counterexample :
    validate (fun _ => false) defaultMsgs [] [] "f" (JSVal.str "x")
      (some { validate := some fun _ _ => VResult.vnull }) =
      Except.ok (false, [("f", ErrVal.null)]) ∧
    ErrVal.null ≠ ErrVal.str defaultMsgs.custom_validation :=
  ⟨rfl, by decide⟩

/-- C4, amended: when every rule before the custom `validate` function
passes, a string result is written verbatim as the error and validation
fails; `true` lets validation proceed and (nothing else applying) the
error is cleared; boolean `false` writes the generic custom-validation
catalog message; any other non-`true` result (such as `null`) is
written as-is into the error store, not replaced by the generic
message. -/
theorem c4_custom_amended (dateOk : String → Bool) (msgs : Msgs) (inputs : Inputs)
    (errs : Errors) (name : String) (v : String) (res : VResult) :
    validate dateOk msgs inputs errs name (JSVal.str v)
      (some { validate := some fun _ _ => res }) =
      Except.ok (match res with
        | VResult.vtrue => (true, clearErr errs name)
        | VResult.vfalse => (false, setErr errs name (ErrVal.str msgs.custom_validation))
        | VResult.vstr s => (false, setErr errs name (ErrVal.str s))
        | VResult.vnull => (false, setErr errs name ErrVal.null)) := by
  cases res <;> rfl

/-- C5, counterexample: with rules `{ isEqual: "B" }` alone, field A
passes validation even though its value differs from B's stored value —
the cross-field check only runs when `required` is also truthy; and
with `{ required: true, isEqual: "B" }` and equal (empty) values,
validation still fails with the required-field message, so equality
alone does not guarantee a pass. -/
theorem c5_isEqual_counterexample :
    validate (fun _ => false) defaultMsgs [("B", { value := "x" })] [] "A" (JSVal.str "y")
      (some { isEqual := some "B" }) = Except.ok (true, [("A", ErrVal.str "")]) ∧
    "y" ≠ "x" ∧
    validate (fun _ => false) defaultMsgs [("B", { value := "" })] [] "A" (JSVal.str "")
      (some { required := true, isEqual := some "B" }) =
      Except.ok (false, [("A", ErrVal.str "Campo obligatorio")]) :=
  ⟨rfl, by decide, rfl⟩

/-- C5, amended: for field A with rules
`{ required: true, isEqual: "B" }` and no other flags, and a value that
is non-empty after trimming, `validate` fails with the
fields-not-match message exactly when A's value differs from B's
currently stored value, and passes when they are equal — the stored
value of B is read at validation time, so this tracks changes to B. -/
theorem c5_isEqual_amended (dateOk : String → Bool) (msgs : Msgs) (inputs : Inputs)
    (errs : Errors) (a b : String)
    (hB : storedValue inputs (some "B") = some b)
    (ha : jsTrim a ≠ "") :
    validate dateOk msgs inputs errs "A" (JSVal.str a)
      (some { required := true, isEqual := some "B" }) =
      Except.ok (if a = b then (true, clearErr errs "A")
        else (false, setErr errs "A" (ErrVal.str msgs.fields_not_match))) := by
  have haa : a ≠ "" := by
    intro h
    exact ha (by rw [h]; rfl)
  unfold validate validateStr validateTail
  simp only [Option.getD_some, hB]
  by_cases hab : a = b
  · subst hab
    simp [eqStored, strTruthy, natTruthy, jsLtNum, jsToNumber, jsGtNum, jsOr, haa, ha]
  · simp [hab, eqStored, strTruthy, natTruthy, jsLtNum, jsToNumber, jsGtNum, jsOr]

/-- C5, witness for the amended theorem: equal values pass. -/
theorem c5_isEqual_witness :
    validate (fun _ => false) defaultMsgs [("B", { value := "pw" })] [] "A" (JSVal.str "pw")
      (some { required := true, isEqual := some "B" }) =
      Except.ok (true, [("A", ErrVal.str "")]) :=
  c5_isEqual_amended (fun _ => false) defaultMsgs [("B", { value := "pw" })] [] "pw" "pw"
    rfl (by decide)

/-- C6: usage errors fail fast — `validate` with an `undefined` or
`null` value throws the descriptive fault before recording anything in
the error store, and the handler returned by `handleSubmit` throws its
descriptive fault when the supplied callback is not an invocable
function, for every state of the stores. -/
theorem c6_usage_theorem :
    (∀ (dateOk : String → Bool) (msgs : Msgs) (inputs : Inputs) (errors : Errors)
        (name : String) (rules : Option Rule),
      validate dateOk msgs inputs errors name JSVal.undef rules =
        Except.error "El campo value es requerido para validar el campo." ∧
      validate dateOk msgs inputs errors name JSVal.null rules =
        Except.error "El campo value es requerido para validar el campo.") ∧
    (∀ (dateOk : String → Bool) (msgs : Msgs) (inputs : Inputs) (errors : Errors),
      handleSubmit dateOk msgs inputs errors false =
        Except.error "La funcion handleSubmit espera como parametro una funcion.") :=
  ⟨fun _ _ _ _ _ _ => ⟨rfl, rfl⟩, fun _ _ _ _ => rfl⟩

/-- C7: `formatMoneyInput` strips everything but digits and commas,
groups the integer part in threes with periods from the right and
rejoins with the comma: `"1234567"` gives `"1.234.567"`,
`"1234567,89"` gives `"1.234.567,89"`, the empty string gives the
empty string, and stripping is visible on `"$1.234.567,89"`. -/
theorem c7_money_theorem :
    formatMoneyInput "1234567" = "1.234.567" ∧
    formatMoneyInput "1234567,89" = "1.234.567,89" ∧
    formatMoneyInput "" = "" ∧
    formatMoneyInput "$1.234.567,89" = "1.234.567,89" :=
  ⟨rfl, rfl, rfl, rfl⟩

/-- C8, counterexample: a bare eleven-digit string — a country code
*not* prefixed by `+` followed by a 3-3-4 group — is returned
unformatted, contradicting the claim that the country-code prefix `+`
is optional. -/
theorem c8_phone_counterexample :
    formatPhoneInput "11234567890" = "11234567890" ∧
    "11234567890" ≠ "1 123-456-7890" :=
  ⟨rfl, by decide⟩

/-- C8, amended: `formatPhoneInput` strips everything but digits,
commas and plus signs; a country code of one to three digits *prefixed
by `+`* followed by a 3-3-4 group renders as `+cc DDD-DDD-DDDD`, a bare
ten-digit string renders as `DDD-DDD-DDDD`, and every other stripped
value — including `"1234"` — is returned unchanged (the function is
total, so it never throws). -/
theorem c8_phone_amended (cc rest : String)
    (hcc : cc.data.all Char.isDigit = true) (h1 : 1 ≤ cc.length) (h3 : cc.length ≤ 3)
    (hrest : rest.data.all Char.isDigit = true) (h10 : rest.length = 10) :
    formatPhoneInput ("+" ++ cc ++ rest) = "+" ++ cc ++ " " ++ group10 rest.data ∧
    (∀ s : String, s.data.all Char.isDigit = true → s.length = 10 →
      formatPhoneInput s = group10 s.data) ∧
    formatPhoneInput "+11234567890" = "+1 123-456-7890" ∧
    formatPhoneInput "1234" = "1234" := by
  have hkeep : ∀ (t : String), t.data.all Char.isDigit = true →
      t.data.filter (fun c => c.isDigit || c == ',' || c == '+') = t.data := by
    intro t ht
    rw [List.filter_eq_self]
    intro c hc
    simp only [List.all_eq_true] at ht
    simp [ht c hc]
  refine ⟨?_, ?_, rfl, rfl⟩
  · have hdata : ("+" ++ cc ++ rest).data = '+' :: (cc.data ++ rest.data) := by
      rw [strData_append, strData_append]
      rfl
    have hall : (cc.data ++ rest.data).all Char.isDigit = true := by
      simp [List.all_append, hcc, hrest]
    have hfil : ('+' :: (cc.data ++ rest.data)).filter
        (fun c => c.isDigit || c == ',' || c == '+') = '+' :: (cc.data ++ rest.data) := by
      rw [List.filter_eq_self]
      intro c hc
      simp only [List.mem_cons] at hc
      simp only [List.all_eq_true] at hall
      rcases hc with h | h
      · simp [h]
      · simp [hall c h]
    have hlen : (cc.data ++ rest.data).length = cc.length + 10 := by
      have h1 : rest.data.length = 10 := h10
      have h2 : cc.data.length = cc.length := rfl
      simp [List.length_append, h1, h2]
    have hplus : ('+' : Char).isDigit = false := rfl
    have d1 : decide (11 ≤ cc.length + 10) = true := by
      simp only [decide_eq_true_eq]
      omega
    have d2 : decide (cc.length + 10 ≤ 13) = true := by
      simp only [decide_eq_true_eq]
      omega
    have hccLen : cc.length + 10 - 10 = cc.data.length := by
      have h2 : cc.data.length = cc.length := rfl
      omega
    unfold formatPhoneInput
    simp only [hdata, hfil, List.all_cons, hplus, Bool.false_and, Bool.false_eq_true,
      if_false, List.head?_cons, List.tail_cons, beq_self_eq_true, if_true, hall,
      hlen, d1, d2, Bool.true_and, Bool.and_self]
    rw [hccLen, List.take_left, List.drop_left, strMk_data]
  · intro s hs hlen
    have hl : s.data.length = 10 := hlen
    unfold formatPhoneInput
    simp [hkeep s hs, hs, hl]

/-- C8, witness for the amended theorem at `cc = "1"`,
`rest = "1234567890"`. -/
theorem c8_phone_witness :
    formatPhoneInput ("+" ++ "1" ++ "1234567890") =
      "+" ++ "1" ++ " " ++ group10 "1234567890".data :=
  (c8_phone_amended "1" "1234567890" (by decide) (by decide) (by decide)
    (by decide) (by decide)).1

/-- C2, counterexample: with three registered fields of which the
middle one fails, the submit handler leaves the error entry of the
*later* field untouched (no entry for `"z"` is written), so `validate`
is not called for every registered field — `Array.prototype.every`
short-circuits at the first failure.  The success callback is not
invoked. -/
theorem c2_submit_counterexample :
    handleSubmit (fun _ => false) defaultMsgs
      [("g", { value := "v" }), ("a", { rules := { required := true } }), ("z", { value := "w" })]
      [] true =
      Except.ok { errors := [("g", ErrVal.str ""), ("a", ErrVal.str "Campo obligatorio")],
                  formData := [("g", "v"), ("a", "")], calledWith := none } ∧
    lookupKey [("g", ErrVal.str ""), ("a", ErrVal.str "Campo obligatorio")] "z" = none :=
  ⟨rfl, rfl⟩

/-- C2, amended: when the registered fields split as a prefix that
fully validates followed by a failing field, the submit handler does
not invoke the success callback, the failing field's error is written,
and the fields after the failure are not validated at all — the
resulting error store and form data are exactly those accumulated up to
and including the first failing field. -/
theorem c2_submit_amended (dateOk : String → Bool) (msgs : Msgs)
    (l1 l2 : List (String × Field)) (n : String) (f : Field)
    (errs errs1 : Errors) (fd1 : List (String × String))
    (hpre : submitLoop dateOk msgs (l1 ++ (n, f) :: l2) l1 errs [] = (true, errs1, fd1))
    (hfail : (validateStr dateOk msgs (l1 ++ (n, f) :: l2) errs1 n f.value (some f.rules)).1 = false) :
    handleSubmit dateOk msgs (l1 ++ (n, f) :: l2) errs true =
      Except.ok { errors := (validateStr dateOk msgs (l1 ++ (n, f) :: l2) errs1 n f.value (some f.rules)).2,
                  formData := updKey fd1 n f.value,
                  calledWith := none } := by
  unfold handleSubmit
  rw [submitLoop_append dateOk msgs (l1 ++ (n, f) :: l2) l1 ((n, f) :: l2) errs [], hpre]
  simp [submitLoop, hfail]

/-- C2, witness for the amended theorem on a concrete store. -/
theorem c2_submit_witness :
    handleSubmit (fun _ => false) defaultMsgs
      [("g", { value := "v" }), ("a", { rules := { required := true } }), ("x", { value := "w" })]
      [] true =
      Except.ok { errors := [("g", ErrVal.str ""), ("a", ErrVal.str "Campo obligatorio")],
                  formData := [("g", "v"), ("a", "")], calledWith := none } :=
  c2_submit_amended (fun _ => false) defaultMsgs [("g", { value := "v" })]
    [("x", { value := "w" })] "a" { rules := { required := true } } []
    [("g", ErrVal.str "")] [("g", "v")] rfl rfl

/-- C3, counterexample: for the already-registered name `"a"`, calling
the binding adapter's registration step with a structurally different
rules descriptor leaves the store untouched (the stored value stays
`"hello"`, it is not reset to `""` as the claimed replacement
`value = rules.value ?? defaultValue ?? ""` would give) — the mutation
is guarded by `!(name in inputs)`, so a registered record is never
replaced. -/
theorem c3_register_counterexample :
    getFieldPropsRegister [("a", { rules := { required := true }, value := "hello" })] "a"
      { minLength := some 3 } none =
      [("a", { rules := { required := true }, value := "hello" })] ∧
    (lookupKey (getFieldPropsRegister
        [("a", { rules := { required := true }, value := "hello" })] "a"
        { minLength := some 3 } none) "a").map Field.value ≠ some "" :=
  ⟨rfl, by decide⟩

/-- C3, amended: the registration step of `getFieldProps` never mutates
the record of an already-registered name, whatever rules are supplied
(so a field's rules and value are fixed for the registration's
lifetime); for an unregistered name it always creates the record — the
serialized-rules comparison is made against the missing record and
never suppresses creation — with
`value = rules.value || defaultValue || ""` (JS falsy coalescing, not
nullish). -/
theorem c3_register_amended (inputs : Inputs) (name : String) (rules : Rule)
    (dv : Option String) :
    (inputs.any (fun p => p.1 == name) = true →
      getFieldPropsRegister inputs name rules dv = inputs) ∧
    (inputs.any (fun p => p.1 == name) = false →
      getFieldPropsRegister inputs name rules dv =
        inputs ++ [(name, { rules := rules, value := jsOr rules.value (jsOr dv "") })]) := by
  constructor
  · intro h
    simp [getFieldPropsRegister, h]
  · intro h
    simp [getFieldPropsRegister, h, updKey]

/-- C3, witness for the amended theorem: a registered name is left
untouched. -/
theorem c3_register_witness :
    getFieldPropsRegister [("a", { rules := { required := true }, value := "hello" })] "a"
      { minLength := some 3 } (some "dv") =
      [("a", { rules := { required := true }, value := "hello" })] :=
  (c3_register_amended [("a", { rules := { required := true }, value := "hello" })] "a"
    { minLength := some 3 } (some "dv")).1 rfl

/-- C9: when `required` is absent or falsy, `validate` skips every
built-in rule check — url, phone, money, min, max, minLength,
maxLength, isEqual, email, date, checkbox, radio and file — whatever
those options are set to, because each check is conjoined with
`rules?.required`; so for any string value it succeeds and clears the
field's error unless a supplied custom `validate` function is present
and fails (here: it is absent, or present and returning `true`). -/
theorem c9_skip_theorem (dateOk : String → Bool) (msgs : Msgs) (inputs : Inputs)
    (errs : Errors) (name : String) (r : Rule) (v : String)
    (hreq : r.required = false)
    (hval : ∀ f, r.validate = some f → f v (inputsVals inputs) = VResult.vtrue) :
    validate dateOk msgs inputs errs name (JSVal.str v) (some r) =
      Except.ok (true, clearErr errs name) := by
  unfold validate validateStr validateTail
  simp only [Option.getD_some, hreq, Bool.false_and, if_false]
  cases hv : r.validate with
  | none => simp
  | some f => simp [hval f hv]

/-- C9, witness: a value with url, email, minLength and checkbox flags
set but `required` absent validates successfully. -/
theorem c9_skip_witness :
    validate (fun _ => false) defaultMsgs [] [] "f" (JSVal.str "x")
      (some { url := true, email := true, minLength := some 99, checkbox := true }) =
      Except.ok (true, [("f", ErrVal.str "")]) :=
  c9_skip_theorem (fun _ => false) defaultMsgs [] [] "f"
    { url := true, email := true, minLength := some 99, checkbox := true } "x"
    rfl (fun _ h => Option.noConfusion h)

/-- C10: for every registered field, the props bundle of
`getFieldProps` contains the helper-text member mapping the key
`rules.helperText` — the literal string `"undefined"` when the option
is unset, since the presence guard is the always-truthy one-element
array `[rules?.helperText]` — to the current error string. -/
theorem c10_helper_theorem (inputs : Inputs) (errs : Errors) (name : String)
    (rules : Rule) (f : Field) (hreg : lookupKey inputs name = some f) :
    (getFieldPropsBundle inputs errs name rules).helperEntry =
      some (jsKeyOfHelper rules.helperText, getFieldError errs name) ∧
    jsKeyOfHelper none = "undefined" := by
  constructor
  · unfold getFieldPropsBundle
    rw [hreg]
  · rfl

/-- C10, witness: with `helperText` unset, the bundle carries the error
under the key `"undefined"`. -/
theorem c10_helper_witness :
    (getFieldPropsBundle [("f", { value := "v" })] [("f", ErrVal.str "err")] "f" {}).helperEntry =
      some ("undefined", "err") ∧ jsKeyOfHelper none = "undefined" :=
  c10_helper_theorem [("f", { value := "v" })] [("f", ErrVal.str "err")] "f" {}
    { value := "v" } rfl

end UseFormValidate
